import Mathlib

/-!
Shallow embedding of `examples/timit.py` from the neko repository.

The script `main` parses CLI arguments, dispatches strings to layer /
learning-rule / backend implementations through dictionaries, loads the
TIMIT dataset, normalizes the tensors, conditionally builds a regularized
loss, assembles model / evaluator / learning rule / trainer, trains once,
evaluates, and pickles a result record to a timestamped file.

The external library (neko) is abstracted as an `Env` of fallible
operations; `runMain` mirrors the straight-line control flow of `main`
and additionally records an event trace of the external calls it makes.
-/

namespace Timit

/-- Python `str.lower()` (ASCII arguments), as used by `args.layer.lower()`
etc. in the script. -/
def pyLower (s : String) : String := String.mk (s.data.map Char.toLower)

/-- The parsed argument set produced by `argparse` in `main`, one field per
`add_argument` call, with the parsed types (`float` embedded as `ℚ`). -/
structure Args where
  seed : Option Int
  backend : String
  epoch : Int
  batch_size : Int
  learning_rule : String
  layer : String
  hidden : Int
  firing_thresh : ℚ
  learning_rate : ℚ
  eprop_mode : String
  reg : Bool
  reg_coeff : ℚ
  reg_target : Int
deriving DecidableEq

/-- The default argument values declared by the `add_argument` calls. -/
def defaultArgs : Args where
  seed := none
  backend := "pytorch"
  epoch := 30
  batch_size := 32
  learning_rule := "eprop"
  layer := "ALIF"
  hidden := 200
  firing_thresh := 1
  learning_rate := 1/1000
  eprop_mode := "adaptive"
  reg := false
  reg_coeff := 5/100000
  reg_target := 10

/-- The three model classes the `_layers` dictionary can select. -/
inductive LayerKind where
  | basicRNN | lifRNN | alifRNN
deriving DecidableEq

/-- The two learning-rule classes the `_learning_rules` dictionary can
select. -/
inductive RuleKind where
  | backprop | eprop
deriving DecidableEq

/-- The two backend modules the `_backends` dictionary can select. -/
inductive BackendMod where
  | pytorch | tensorflow
deriving DecidableEq

/-- `_layers = {'rnn': BasicRNNModel, 'lif': LIFRNNModel, 'alif': ALIFRNNModel}`. -/
def _layers : List (String × LayerKind) :=
  [("rnn", .basicRNN), ("lif", .lifRNN), ("alif", .alifRNN)]

/-- `_learning_rules = {'bptt': Backprop, 'eprop': Eprop}`. -/
def _learning_rules : List (String × RuleKind) :=
  [("bptt", .backprop), ("eprop", .eprop)]

/-- `_backends = {'torch': pytb, 'pytorch': pytb, 'pyt': pytb, 'tf': tfb, 'tensorflow': tfb}`. -/
def _backends : List (String × BackendMod) :=
  [("torch", .pytorch), ("pytorch", .pytorch), ("pyt", .pytorch),
   ("tf", .tensorflow), ("tensorflow", .tensorflow)]

/-- `_layers[args.layer.lower()]`, `none` standing for the `KeyError` case. -/
def lookupLayer (s : String) : Option LayerKind := _layers.lookup (pyLower s)

/-- `_learning_rules[args.learning_rule.lower()]`. -/
def lookupRule (s : String) : Option RuleKind := _learning_rules.lookup (pyLower s)

/-- `_backends[args.backend.lower()]`. -/
def lookupBackend (s : String) : Option BackendMod := _backends.lookup (pyLower s)

/-- Python exceptions the script can propagate: the `KeyError` from a
dictionary lookup, or any exception raised by a library callee. -/
inductive PyError where
  | keyError (key : String)
  | other (msg : String)
deriving DecidableEq

/-- The keyword arguments of the `TimitDataset(32, data_path='timit_processed',
preproc='mfccs', use_reduced_phonem_set=False)` construction. -/
structure DatasetArgs where
  batch : Int
  data_path : String
  preproc : String
  use_reduced_phonem_set : Bool
deriving DecidableEq

/-- The dataset object, of which the script reads only `n_phns`. -/
structure Dataset where
  n_phns : Nat
deriving DecidableEq

/-- Symbolic numpy arrays: the raw batches handed out by the dataset
(`base`), `astype` casts, and the backend's `categorical_to_onehot`.
`B` is the type of the raw array values. -/
inductive Arr (B : Type) where
  | base (b : B)
  | astype (dtype : String) (a : Arr B)
  | onehot (backend : BackendMod) (a : Arr B) (classes : Nat)
deriving DecidableEq

/-- The model object built by `layer(args.hidden, output_size=..., backend=...,
task_type='classification', return_sequence=True, v_th=..., seed=...)`. -/
structure RnnSpec where
  layer : LayerKind
  hidden : Int
  output_size : Nat
  backend : BackendMod
  task_type : String
  return_sequence : Bool
  v_th : ℚ
  seed : Option Int
deriving DecidableEq

/-- The `loss` local of `main`: either a plain string (resolved later by the
Evaluator) or the closure `loss_with_reg`, whose value on
`(model, x, y_true)` is a numeric loss embedded as `ℚ`. -/
inductive LossSpec (B : Type) where
  | str (s : String)
  | fn (f : RnnSpec → Arr B → Arr B → ℚ)

/-- `Evaluator(model=rnn, loss=loss, metrics=['accuracy', 'firing_rate'])`. -/
structure EvalSpec (B : Type) where
  model : RnnSpec
  loss : LossSpec B
  metrics : List String

/-- The learning-rule construction
`learning_rule(evaluated_model, optimizer=Adam(...), mode=...,
firing_rate_regularization=args.reg, c_reg=args.reg_coeff,
f_target=args.reg_target)`. -/
structure AlgoSpec (B : Type) where
  rule : RuleKind
  evaluated_model : EvalSpec B
  learning_rate : ℚ
  mode : String
  firing_rate_regularization : Bool
  c_reg : ℚ
  f_target : Int

/-- The arguments of the single `trainer.train(x_train, y_train,
epochs=args.epoch, batch_size=args.batch_size,
validation_data=(x_test, y_test))` call. -/
structure TrainArgs (B : Type) where
  x : Arr B
  y : Arr B
  epochs : Int
  batch_size : Int
  validation_data : Arr B × Arr B
deriving DecidableEq

/-- Values stored in the pickled `task_log` dictionary: parsed option
values, the `'timit'` name, the training log (`L`), the completion
timestamp, and the test result (`R`). -/
inductive PyVal (L R : Type) where
  | noneVal
  | int (i : Int)
  | rat (q : ℚ)
  | str (s : String)
  | bool (b : Bool)
  | log (l : L)
  | result (r : R)
deriving DecidableEq

/-- `vars(args)['seed']`: `None` when no seed was given, the integer
otherwise. -/
def pySeed (L R : Type) : Option Int → PyVal L R
  | none => .noneVal
  | some i => .int i

/-- `vars(args)`: the parsed argument set as a dictionary, keys in
`add_argument` order. -/
def varsArgs (L R : Type) (a : Args) : List (String × PyVal L R) :=
  [("seed", pySeed L R a.seed),
   ("backend", .str a.backend),
   ("epoch", .int a.epoch),
   ("batch_size", .int a.batch_size),
   ("learning_rule", .str a.learning_rule),
   ("layer", .str a.layer),
   ("hidden", .int a.hidden),
   ("firing_thresh", .rat a.firing_thresh),
   ("learning_rate", .rat a.learning_rate),
   ("eprop_mode", .str a.eprop_mode),
   ("reg", .bool a.reg),
   ("reg_coeff", .rat a.reg_coeff),
   ("reg_target", .int a.reg_target)]

/-- Python dict assignment `d[k] = v`: replace the value when the key is
present, append the binding otherwise. -/
def dictInsert {L R : Type} (d : List (String × PyVal L R)) (k : String)
    (v : PyVal L R) : List (String × PyVal L R) :=
  if (d.lookup k).isSome then
    d.map (fun p => if p.1 = k then (k, v) else p)
  else
    d ++ [(k, v)]

/-- The external library and OS, abstracted: every operation of `main` that
is implemented outside the script. `B` is the raw array type, `L` the type
of training logs, `R` the type of evaluation results. -/
structure Env (B L R : Type) where
  timitDataset : DatasetArgs → Except PyError Dataset
  get_train_batch : Except PyError (Arr B × Arr B × B × B)
  get_test_batch : Except PyError (Arr B × Arr B × B × B)
  get_loss : String → BackendMod → Option Int → (RnnSpec → Arr B → Arr B → ℚ)
  train : AlgoSpec B → TrainArgs B → Except PyError L
  evaluate : EvalSpec B → Arr B → Arr B → Except PyError R
  now : Int
  pickleDump : String → List (String × PyVal L R) → Except PyError Unit

/-- Events recording the external calls `main` performs, in order. -/
inductive Event (B : Type) where
  | datasetLoad (dargs : DatasetArgs)
  | getTrainBatch
  | getTestBatch
  | train (t : TrainArgs B)
  | evaluate (x y : Arr B)
  | pickleWrite (filename : String)
deriving DecidableEq

/-- The conditional loss construction of `main`: `loss_with_reg` when the
lowercased learning rule is `'bptt'` and `--reg` is set, the plain string
`'categorical_crossentropy'` otherwise. -/
def mkLoss {B L R : Type} (env : Env B L R) (n : BackendMod) (a : Args) :
    LossSpec B :=
  if pyLower a.learning_rule = "bptt" ∧ a.reg = true then
    let loss_fn := env.get_loss "categorical_crossentropy" n none
    let regularization_fn :=
      env.get_loss "firing_rate_regularization" n (some a.reg_target)
    .fn (fun model x y_true =>
      loss_fn model x y_true + a.reg_coeff * regularization_fn model x y_true)
  else
    .str "categorical_crossentropy"

/-- The `rnn = layer(args.hidden, output_size=dataset.n_phns, backend=n,
task_type='classification', return_sequence=True, v_th=args.firing_thresh,
seed=args.seed)` construction. -/
def buildRnn (layerK : LayerKind) (n : BackendMod) (ds : Dataset) (a : Args) :
    RnnSpec :=
  ⟨layerK, a.hidden, ds.n_phns, n, "classification", true, a.firing_thresh, a.seed⟩

/-- The `algo = learning_rule(evaluated_model, optimizer=Adam(...), ...)`
construction. -/
def buildAlgo {B : Type} (ruleK : RuleKind) (ev : EvalSpec B) (a : Args) :
    AlgoSpec B :=
  ⟨ruleK, ev, a.learning_rate, a.eprop_mode, a.reg, a.reg_coeff, a.reg_target⟩

/-- The `task_log` dictionary as pickled: `vars(args)` updated with the
four trailing assignments. -/
def buildTaskLog {L R : Type} (a : Args) (training_log : L) (test_result : R)
    (completion_time : Int) : List (String × PyVal L R) :=
  dictInsert (dictInsert (dictInsert (dictInsert (varsArgs L R a)
    "name" (.str "timit"))
    "log" (.log training_log))
    "completion_time" (.int completion_time))
    "test_result" (.result test_result)

/-- The dataset-construction arguments hard-coded in `main`. -/
def datasetArgsOfMain : DatasetArgs := ⟨32, "timit_processed", "mfccs", false⟩

/-- What a completed run of `main` produced. -/
structure MainResult (B L R : Type) where
  rnn : RnnSpec
  evaluated_model : EvalSpec B
  algo : AlgoSpec B
  training_log : L
  test_result : R
  completion_time : Int
  task_log : List (String × PyVal L R)
  filename : String

/-- The body of `main` after argument parsing: dictionary dispatch, dataset
loading, tensor normalization, loss construction, assembly, one training
call, evaluation, and pickling, with the trace of external calls made.
There is no exception handler: the first failing step's error is returned
and nothing further runs. -/
def runMain {B L R : Type} (env : Env B L R) (a : Args) :
    List (Event B) × Except PyError (MainResult B L R) :=
  match lookupLayer a.layer with
  | none => ([], .error (.keyError (pyLower a.layer)))
  | some layerK =>
  match lookupRule a.learning_rule with
  | none => ([], .error (.keyError (pyLower a.learning_rule)))
  | some ruleK =>
  match lookupBackend a.backend with
  | none => ([], .error (.keyError (pyLower a.backend)))
  | some n =>
  match env.timitDataset datasetArgsOfMain with
  | .error e => ([.datasetLoad datasetArgsOfMain], .error e)
  | .ok dataset =>
  match env.get_train_batch with
  | .error e => ([.datasetLoad datasetArgsOfMain, .getTrainBatch], .error e)
  | .ok (x_train0, y_train0, _, _) =>
  match env.get_test_batch with
  | .error e =>
    ([.datasetLoad datasetArgsOfMain, .getTrainBatch, .getTestBatch], .error e)
  | .ok (x_test0, y_test0, _, _) =>
  let x_train := Arr.astype "float32" x_train0
  let y_train1 := Arr.astype "float32" y_train0
  let x_test := Arr.astype "float32" x_test0
  let y_test1 := Arr.astype "float32" y_test0
  let y_train := Arr.onehot n y_train1 dataset.n_phns
  let y_test := Arr.onehot n y_test1 dataset.n_phns
  let loss := mkLoss env n a
  let rnn := buildRnn layerK n dataset a
  let evaluated_model : EvalSpec B := ⟨rnn, loss, ["accuracy", "firing_rate"]⟩
  let algo := buildAlgo ruleK evaluated_model a
  let targs : TrainArgs B := ⟨x_train, y_train, a.epoch, a.batch_size, (x_test, y_test)⟩
  match env.train algo targs with
  | .error e =>
    ([.datasetLoad datasetArgsOfMain, .getTrainBatch, .getTestBatch,
      .train targs], .error e)
  | .ok training_log =>
  match env.evaluate evaluated_model x_test y_test with
  | .error e =>
    ([.datasetLoad datasetArgsOfMain, .getTrainBatch, .getTestBatch,
      .train targs, .evaluate x_test y_test], .error e)
  | .ok test_result =>
  let completion_time := env.now
  let task_log := buildTaskLog a training_log test_result completion_time
  let filename := "timit_" ++ toString completion_time ++ ".pkl"
  match env.pickleDump filename task_log with
  | .error e =>
    ([.datasetLoad datasetArgsOfMain, .getTrainBatch, .getTestBatch,
      .train targs, .evaluate x_test y_test, .pickleWrite filename], .error e)
  | .ok _ =>
    ([.datasetLoad datasetArgsOfMain, .getTrainBatch, .getTestBatch,
      .train targs, .evaluate x_test y_test, .pickleWrite filename],
     .ok ⟨rnn, evaluated_model, algo, training_log, test_result,
          completion_time, task_log, filename⟩)

/-- `True` exactly on `train` events, for counting training invocations. -/
def Event.isTrain {B : Type} : Event B → Bool
  | .train _ => true
  | _ => false

/-- A concrete, everywhere-succeeding environment, used to evaluate the
script on concrete inputs. -/
def unitEnv : Env Unit Unit Unit where
  timitDataset := fun _ => .ok ⟨61⟩
  get_train_batch := .ok (.base (), .base (), (), ())
  get_test_batch := .ok (.base (), .base (), (), ())
  get_loss := fun _ _ _ _ _ _ => 0
  train := fun _ _ => .ok ()
  evaluate := fun _ _ _ => .ok ()
  now := 1700000000
  pickleDump := fun _ _ => .ok ()

/-- A concrete environment whose dataset construction raises. -/
def errEnv : Env Unit Unit Unit :=
  { unitEnv with timitDataset := fun _ => .error (.other "io") }

/-- The default arguments with an unrecognized `--layer` value. -/
def badLayerArgs : Args := { defaultArgs with layer := "GRU" }

/-- The default arguments with `--learning_rule bptt --reg`. -/
def bpttRegArgs : Args := { defaultArgs with learning_rule := "bptt", reg := true }

/-- C1: when the lowercased `--layer`, `--learning_rule`, or `--backend`
value is not a key of its dispatch table, `main` fails with a `KeyError`
at the dictionary lookup whose key is one of the lowercased values, and
no external call (in particular no dataset loading or training) has
happened; nothing is retried. -/
theorem dispatch_keyError {B L R : Type} (env : Env B L R) (a : Args)
    (h : lookupLayer a.layer = none ∨ lookupRule a.learning_rule = none ∨
         lookupBackend a.backend = none) :
    (runMain env a).1 = [] ∧
    ∃ k, (runMain env a).2 = .error (.keyError k) ∧
      (k = pyLower a.layer ∨ k = pyLower a.learning_rule ∨ k = pyLower a.backend) := by
  cases hl : lookupLayer a.layer with
  | none =>
    refine ⟨?_, pyLower a.layer, ?_, Or.inl rfl⟩ <;> simp [runMain, hl]
  | some lk =>
    cases hr : lookupRule a.learning_rule with
    | none =>
      refine ⟨?_, pyLower a.learning_rule, ?_, Or.inr (Or.inl rfl)⟩ <;>
        simp [runMain, hl, hr]
    | some rk =>
      cases hb : lookupBackend a.backend with
      | none =>
        refine ⟨?_, pyLower a.backend, ?_, Or.inr (Or.inr rfl)⟩ <;>
          simp [runMain, hl, hr, hb]
      | some n => simp [hl, hr, hb] at h

/-- Witness for C1 at the concrete input `--layer GRU`. -/
theorem dispatch_keyError_witness :
    (lookupLayer badLayerArgs.layer = none ∨
     lookupRule badLayerArgs.learning_rule = none ∨
     lookupBackend badLayerArgs.backend = none) ∧
    ((runMain unitEnv badLayerArgs).1 = [] ∧
     ∃ k, (runMain unitEnv badLayerArgs).2 = .error (.keyError k) ∧
       (k = pyLower badLayerArgs.layer ∨ k = pyLower badLayerArgs.learning_rule ∨
        k = pyLower badLayerArgs.backend)) :=
  ⟨Or.inl (by decide), dispatch_keyError unitEnv badLayerArgs (Or.inl (by decide))⟩

/-- C2: the loss handed to the Evaluator is the regularized closure exactly
when the lowercased learning rule is `'bptt'` and `--reg` is set, and that
closure computes `categorical_crossentropy + reg_coeff *
firing_rate_regularization` with `firing_rate_target = reg_target`; in
every other case the loss is the plain string
`'categorical_crossentropy'`. -/
theorem loss_selection {B L R : Type} (env : Env B L R) (n : BackendMod) (a : Args) :
    (pyLower a.learning_rule = "bptt" ∧ a.reg = true →
      mkLoss env n a = .fn (fun model x y_true =>
        env.get_loss "categorical_crossentropy" n none model x y_true +
        a.reg_coeff *
          env.get_loss "firing_rate_regularization" n (some a.reg_target) model x y_true)) ∧
    (¬ (pyLower a.learning_rule = "bptt" ∧ a.reg = true) →
      mkLoss env n a = .str "categorical_crossentropy") := by
  constructor
  · intro h
    rw [mkLoss, if_pos h]
  · intro h
    rw [mkLoss, if_neg h]

/-- Witness for C2: with `--learning_rule bptt --reg` the loss is the
regularized closure; with the defaults (`eprop`) it is the plain string. -/
theorem loss_selection_witness :
    mkLoss unitEnv .pytorch bpttRegArgs = .fn (fun model x y_true =>
      unitEnv.get_loss "categorical_crossentropy" .pytorch none model x y_true +
      bpttRegArgs.reg_coeff *
        unitEnv.get_loss "firing_rate_regularization" .pytorch
          (some bpttRegArgs.reg_target) model x y_true) ∧
    mkLoss unitEnv .pytorch defaultArgs = .str "categorical_crossentropy" :=
  ⟨(loss_selection unitEnv .pytorch bpttRegArgs).1 (by decide),
   (loss_selection unitEnv .pytorch defaultArgs).2 (by decide)⟩

/-- The value of the `evaluated_model` local of `main`. -/
@[reducible] def evalSpecOf {B L R : Type} (env : Env B L R) (layerK : LayerKind)
    (n : BackendMod) (ds : Dataset) (a : Args) : EvalSpec B :=
  ⟨buildRnn layerK n ds a, mkLoss env n a, ["accuracy", "firing_rate"]⟩

/-- The arguments of the `trainer.train` call, given the raw batches. -/
@[reducible] def trainArgsOf {B : Type} (n : BackendMod) (ds : Dataset) (a : Args)
    (xt yt xs ys : Arr B) : TrainArgs B :=
  ⟨Arr.astype "float32" xt,
   Arr.onehot n (Arr.astype "float32" yt) ds.n_phns,
   a.epoch, a.batch_size,
   (Arr.astype "float32" xs,
    Arr.onehot n (Arr.astype "float32" ys) ds.n_phns)⟩

/-- The `MainResult` of a completed run. -/
@[reducible] def mainResultOf {B L R : Type} (env : Env B L R) (layerK : LayerKind)
    (ruleK : RuleKind) (n : BackendMod) (ds : Dataset) (a : Args)
    (l : L) (res : R) : MainResult B L R :=
  { rnn := buildRnn layerK n ds a
    evaluated_model := evalSpecOf env layerK n ds a
    algo := buildAlgo ruleK (evalSpecOf env layerK n ds a) a
    training_log := l
    test_result := res
    completion_time := env.now
    task_log := buildTaskLog a l res env.now
    filename := "timit_" ++ toString env.now ++ ".pkl" }

/-- The event trace of a completed run. -/
@[reducible] def fullTraceOf {B : Type} (n : BackendMod) (ds : Dataset) (a : Args)
    (xt yt xs ys : Arr B) (t : Int) : List (Event B) :=
  [.datasetLoad datasetArgsOfMain, .getTrainBatch, .getTestBatch,
   .train (trainArgsOf n ds a xt yt xs ys),
   .evaluate (Arr.astype "float32" xs)
     (Arr.onehot n (Arr.astype "float32" ys) ds.n_phns),
   .pickleWrite ("timit_" ++ toString t ++ ".pkl")]

/-- A completed run of `main` determines every intermediate step: both
dispatch lookups and all external calls succeeded, and the result and the
trace are the canonical ones. -/
theorem runMain_ok_elim {B L R : Type} {env : Env B L R} {a : Args}
    {tr : List (Event B)} {r : MainResult B L R}
    (h : runMain env a = (tr, .ok r)) :
    ∃ (layerK : LayerKind) (ruleK : RuleKind) (n : BackendMod) (ds : Dataset)
      (xt yt : Arr B) (u1 u2 : B) (xs ys : Arr B) (v1 v2 : B)
      (l : L) (res : R),
      lookupLayer a.layer = some layerK ∧
      lookupRule a.learning_rule = some ruleK ∧
      lookupBackend a.backend = some n ∧
      env.timitDataset datasetArgsOfMain = .ok ds ∧
      env.get_train_batch = .ok (xt, yt, u1, u2) ∧
      env.get_test_batch = .ok (xs, ys, v1, v2) ∧
      env.train (buildAlgo ruleK (evalSpecOf env layerK n ds a) a)
        (trainArgsOf n ds a xt yt xs ys) = .ok l ∧
      env.evaluate (evalSpecOf env layerK n ds a) (Arr.astype "float32" xs)
        (Arr.onehot n (Arr.astype "float32" ys) ds.n_phns) = .ok res ∧
      env.pickleDump ("timit_" ++ toString env.now ++ ".pkl")
        (buildTaskLog a l res env.now) = .ok () ∧
      r = mainResultOf env layerK ruleK n ds a l res ∧
      tr = fullTraceOf n ds a xt yt xs ys env.now := by
  simp only [runMain] at h
  repeat' split at h
  any_goals exact Except.noConfusion (congrArg Prod.snd h)
  have h1 := congrArg Prod.fst h
  have h2 := Except.ok.inj (congrArg Prod.snd h)
  exact ⟨_, _, _, _, _, _, _, _, _, _, _, _, _, _,
    by assumption, by assumption, by assumption, by assumption, by assumption,
    by assumption, by assumption, by assumption, by assumption,
    h2.symm, h1.symm⟩

/-- C8: dispatch is case-insensitive: two values with the same lowercasing
select the same entry in every table, any value whose lowercasing is a
table key is accepted, the default `--layer` value `ALIF` selects the
`alif` entry, and `torch`, `pytorch`, `pyt` all select the pytorch
backend. -/
theorem dispatch_case_insensitive :
    (∀ s t : String, pyLower s = pyLower t →
      lookupLayer s = lookupLayer t ∧ lookupRule s = lookupRule t ∧
      lookupBackend s = lookupBackend t) ∧
    (∀ s, (_layers.lookup (pyLower s)).isSome → (lookupLayer s).isSome) ∧
    (∀ s, (_learning_rules.lookup (pyLower s)).isSome → (lookupRule s).isSome) ∧
    (∀ s, (_backends.lookup (pyLower s)).isSome → (lookupBackend s).isSome) ∧
    lookupLayer defaultArgs.layer = some .alifRNN ∧
    lookupLayer "ALIF" = lookupLayer "alif" ∧
    lookupBackend "torch" = some .pytorch ∧
    lookupBackend "pytorch" = some .pytorch ∧
    lookupBackend "pyt" = some .pytorch := by
  refine ⟨?_, ?_, ?_, ?_, by decide, by decide, by decide, by decide, by decide⟩
  · intro s t h
    refine ⟨?_, ?_, ?_⟩ <;> simp only [lookupLayer, lookupRule, lookupBackend, h]
  · intro s h; exact h
  · intro s h; exact h
  · intro s h; exact h

/-- Witness for C8: `PyTorch` and `pytorch` lowercase identically and
select the same backend. -/
theorem dispatch_case_insensitive_witness :
    pyLower "PyTorch" = pyLower "pytorch" ∧
    lookupBackend "PyTorch" = lookupBackend "pytorch" :=
  ⟨by decide, (dispatch_case_insensitive.1 "PyTorch" "pytorch" (by decide)).2.2⟩

/-- C3: the pickled mapping contains every parsed CLI option name mapped
to its parsed value, plus `'name' ↦ 'timit'`, `'log' ↦` the training log
returned by `trainer.train`, `'completion_time' ↦` the completion
timestamp, and `'test_result' ↦` the metrics returned by `evaluate`. -/
theorem task_log_contents {B L R : Type} (env : Env B L R) (a : Args)
    (tr : List (Event B)) (r : MainResult B L R)
    (h : runMain env a = (tr, .ok r)) :
    r.task_log.lookup "seed" = some (pySeed L R a.seed) ∧
    r.task_log.lookup "backend" = some (.str a.backend) ∧
    r.task_log.lookup "epoch" = some (.int a.epoch) ∧
    r.task_log.lookup "batch_size" = some (.int a.batch_size) ∧
    r.task_log.lookup "learning_rule" = some (.str a.learning_rule) ∧
    r.task_log.lookup "layer" = some (.str a.layer) ∧
    r.task_log.lookup "hidden" = some (.int a.hidden) ∧
    r.task_log.lookup "firing_thresh" = some (.rat a.firing_thresh) ∧
    r.task_log.lookup "learning_rate" = some (.rat a.learning_rate) ∧
    r.task_log.lookup "eprop_mode" = some (.str a.eprop_mode) ∧
    r.task_log.lookup "reg" = some (.bool a.reg) ∧
    r.task_log.lookup "reg_coeff" = some (.rat a.reg_coeff) ∧
    r.task_log.lookup "reg_target" = some (.int a.reg_target) ∧
    r.task_log.lookup "name" = some (.str "timit") ∧
    r.task_log.lookup "log" = some (.log r.training_log) ∧
    r.task_log.lookup "completion_time" = some (.int r.completion_time) ∧
    r.task_log.lookup "test_result" = some (.result r.test_result) ∧
    (∃ al ta, env.train al ta = .ok r.training_log) ∧
    (∃ ev x y, env.evaluate ev x y = .ok r.test_result) := by
  obtain ⟨lk, rk, n, ds, xt, yt, u1, u2, xs, ys, v1, v2, l, res,
    hl, hr, hb, hd, htb, hsb, htrn, hev, hpd, hres, htrace⟩ := runMain_ok_elim h
  subst hres
  refine ⟨?_, ?_, ?_, ?_, ?_, ?_, ?_, ?_, ?_, ?_, ?_, ?_, ?_, ?_, ?_, ?_, ?_,
    ⟨_, _, htrn⟩, ⟨_, _, _, hev⟩⟩ <;>
    simp [mainResultOf, buildTaskLog, dictInsert, varsArgs, List.lookup]

/-- Witness for C3 at the defaults in the always-succeeding environment:
the `'name'` key of the pickled mapping holds `'timit'`. -/
theorem task_log_contents_witness :
    (mainResultOf unitEnv .alifRNN .eprop .pytorch ⟨61⟩ defaultArgs
      () ()).task_log.lookup "name" = some (.str "timit") :=
  (task_log_contents unitEnv defaultArgs
    (fullTraceOf .pytorch ⟨61⟩ defaultArgs (.base ()) (.base ()) (.base ())
      (.base ()) 1700000000)
    (mainResultOf unitEnv .alifRNN .eprop .pytorch ⟨61⟩ defaultArgs () ())
    rfl).2.2.2.2.2.2.2.2.2.2.2.2.2.1

/-- C4: once the batches are retrieved, the training call receives
`x_train` and the validation `x_test` cast to float32 and *not* one-hot
encoded, while `y_train` and the validation `y_test` are cast to float32
and then one-hot encoded with `dataset.n_phns` classes by the selected
backend. -/
theorem data_normalization {B L R : Type} (env : Env B L R) (a : Args)
    (lk : LayerKind) (rk : RuleKind) (n : BackendMod) (ds : Dataset)
    (xt yt : Arr B) (u1 u2 : B) (xs ys : Arr B) (v1 v2 : B)
    (h1 : lookupLayer a.layer = some lk)
    (h2 : lookupRule a.learning_rule = some rk)
    (h3 : lookupBackend a.backend = some n)
    (h4 : env.timitDataset datasetArgsOfMain = .ok ds)
    (h5 : env.get_train_batch = .ok (xt, yt, u1, u2))
    (h6 : env.get_test_batch = .ok (xs, ys, v1, v2)) :
    (∃ rest, (runMain env a).1 =
      [.datasetLoad datasetArgsOfMain, .getTrainBatch, .getTestBatch,
       .train (trainArgsOf n ds a xt yt xs ys)] ++ rest) ∧
    (trainArgsOf n ds a xt yt xs ys).x = Arr.astype "float32" xt ∧
    (trainArgsOf n ds a xt yt xs ys).y =
      Arr.onehot n (Arr.astype "float32" yt) ds.n_phns ∧
    (trainArgsOf n ds a xt yt xs ys).validation_data =
      (Arr.astype "float32" xs,
       Arr.onehot n (Arr.astype "float32" ys) ds.n_phns) ∧
    (∀ (b : BackendMod) (z : Arr B) (c : Nat),
      (trainArgsOf n ds a xt yt xs ys).x ≠ Arr.onehot b z c ∧
      (trainArgsOf n ds a xt yt xs ys).validation_data.1 ≠ Arr.onehot b z c) := by
  refine ⟨?_, rfl, rfl, rfl,
    fun b z c => ⟨by simp [trainArgsOf], by simp [trainArgsOf]⟩⟩
  simp only [runMain, h1, h2, h3, h4, h5, h6]
  repeat' split
  all_goals exact ⟨_, rfl⟩

/-- Witness for C4 at the defaults in the always-succeeding environment. -/
theorem data_normalization_witness :
    (trainArgsOf .pytorch ⟨61⟩ defaultArgs (Arr.base ()) (Arr.base ())
      (Arr.base ()) (Arr.base ())).x = Arr.astype "float32" (Arr.base ()) :=
  (data_normalization unitEnv defaultArgs .alifRNN .eprop .pytorch ⟨61⟩
    (Arr.base ()) (Arr.base ()) () () (Arr.base ()) (Arr.base ()) () ()
    (by decide) (by decide) (by decide) rfl rfl rfl).2.1

/-- C5: the artifact is written to `'timit_' ++ completion timestamp ++
'.pkl'`, the timestamp is the environment clock read at completion, the
same value is stored under `'completion_time'`, and the write is the last
external action. -/
theorem output_artifact {B L R : Type} (env : Env B L R) (a : Args)
    (tr : List (Event B)) (r : MainResult B L R)
    (h : runMain env a = (tr, .ok r)) :
    r.filename = "timit_" ++ toString r.completion_time ++ ".pkl" ∧
    r.completion_time = env.now ∧
    r.task_log.lookup "completion_time" = some (.int r.completion_time) ∧
    tr.getLast? = some (.pickleWrite r.filename) := by
  obtain ⟨lk, rk, n, ds, xt, yt, u1, u2, xs, ys, v1, v2, l, res,
    hl, hr, hb, hd, htb, hsb, htrn, hev, hpd, hres, htrace⟩ := runMain_ok_elim h
  subst hres htrace
  refine ⟨rfl, rfl, ?_, ?_⟩ <;>
    simp [mainResultOf, fullTraceOf, buildTaskLog, dictInsert, varsArgs,
      List.lookup]

/-- Witness for C5 at the defaults in the always-succeeding environment. -/
theorem output_artifact_witness :
    (mainResultOf unitEnv .alifRNN .eprop .pytorch ⟨61⟩ defaultArgs
      () ()).filename =
    "timit_" ++ toString (mainResultOf unitEnv .alifRNN .eprop .pytorch ⟨61⟩
      defaultArgs () ()).completion_time ++ ".pkl" :=
  (output_artifact unitEnv defaultArgs
    (fullTraceOf .pytorch ⟨61⟩ defaultArgs (.base ()) (.base ()) (.base ())
      (.base ()) 1700000000)
    (mainResultOf unitEnv .alifRNN .eprop .pytorch ⟨61⟩ defaultArgs () ())
    rfl).1

/-- C6: `main` installs no exception handler: once dispatch has resolved,
the error of the first failing callee — dataset construction, train-batch
or test-batch retrieval, training, evaluation, or the pickle write — is
exactly what `main` returns. -/
theorem error_propagation {B L R : Type} (env : Env B L R) (a : Args)
    (lk : LayerKind) (rk : RuleKind) (n : BackendMod)
    (h1 : lookupLayer a.layer = some lk)
    (h2 : lookupRule a.learning_rule = some rk)
    (h3 : lookupBackend a.backend = some n) :
    (∀ e, env.timitDataset datasetArgsOfMain = .error e →
      (runMain env a).2 = .error e) ∧
    (∀ e ds, env.timitDataset datasetArgsOfMain = .ok ds →
      env.get_train_batch = .error e → (runMain env a).2 = .error e) ∧
    (∀ e ds (xt yt : Arr B) (u1 u2 : B),
      env.timitDataset datasetArgsOfMain = .ok ds →
      env.get_train_batch = .ok (xt, yt, u1, u2) →
      env.get_test_batch = .error e → (runMain env a).2 = .error e) ∧
    (∀ e ds (xt yt : Arr B) (u1 u2 : B) (xs ys : Arr B) (v1 v2 : B),
      env.timitDataset datasetArgsOfMain = .ok ds →
      env.get_train_batch = .ok (xt, yt, u1, u2) →
      env.get_test_batch = .ok (xs, ys, v1, v2) →
      env.train (buildAlgo rk (evalSpecOf env lk n ds a) a)
        (trainArgsOf n ds a xt yt xs ys) = .error e →
      (runMain env a).2 = .error e) ∧
    (∀ e ds (xt yt : Arr B) (u1 u2 : B) (xs ys : Arr B) (v1 v2 : B) (l : L),
      env.timitDataset datasetArgsOfMain = .ok ds →
      env.get_train_batch = .ok (xt, yt, u1, u2) →
      env.get_test_batch = .ok (xs, ys, v1, v2) →
      env.train (buildAlgo rk (evalSpecOf env lk n ds a) a)
        (trainArgsOf n ds a xt yt xs ys) = .ok l →
      env.evaluate (evalSpecOf env lk n ds a) (Arr.astype "float32" xs)
        (Arr.onehot n (Arr.astype "float32" ys) ds.n_phns) = .error e →
      (runMain env a).2 = .error e) ∧
    (∀ e ds (xt yt : Arr B) (u1 u2 : B) (xs ys : Arr B) (v1 v2 : B)
      (l : L) (res : R),
      env.timitDataset datasetArgsOfMain = .ok ds →
      env.get_train_batch = .ok (xt, yt, u1, u2) →
      env.get_test_batch = .ok (xs, ys, v1, v2) →
      env.train (buildAlgo rk (evalSpecOf env lk n ds a) a)
        (trainArgsOf n ds a xt yt xs ys) = .ok l →
      env.evaluate (evalSpecOf env lk n ds a) (Arr.astype "float32" xs)
        (Arr.onehot n (Arr.astype "float32" ys) ds.n_phns) = .ok res →
      env.pickleDump ("timit_" ++ toString env.now ++ ".pkl")
        (buildTaskLog a l res env.now) = .error e →
      (runMain env a).2 = .error e) := by
  refine ⟨?_, ?_, ?_, ?_, ?_, ?_⟩
  · intro e h4
    simp only [runMain, h1, h2, h3, h4]
  · intro e ds h4 h5
    simp only [runMain, h1, h2, h3, h4, h5]
  · intro e ds xt yt u1 u2 h4 h5 h6
    simp only [runMain, h1, h2, h3, h4, h5, h6]
  · intro e ds xt yt u1 u2 xs ys v1 v2 h4 h5 h6 h7
    simp only [runMain, h1, h2, h3, h4, h5, h6] at h7 ⊢
    simp only [h7]
  · intro e ds xt yt u1 u2 xs ys v1 v2 l h4 h5 h6 h7 h8
    simp only [runMain, h1, h2, h3, h4, h5, h6] at h7 h8 ⊢
    simp only [h7, h8]
  · intro e ds xt yt u1 u2 xs ys v1 v2 l res h4 h5 h6 h7 h8 h9
    simp only [runMain, h1, h2, h3, h4, h5, h6] at h7 h8 h9 ⊢
    simp only [h7, h8, h9]

/-- Witness for C6: a dataset-construction failure propagates out of
`main` unchanged. -/
theorem error_propagation_witness :
    (runMain errEnv defaultArgs).2 = .error (.other "io") :=
  (error_propagation errEnv defaultArgs .alifRNN .eprop .pytorch
    (by decide) (by decide) (by decide)).1 (.other "io") rfl

/-- C7: in any run at most one training call happens; in a completed run
the trace is exactly dataset load, the two batch retrievals, one training
call, then the evaluation and the pickle write — training never recurs
after evaluation or persistence. -/
theorem train_once_then_evaluate {B L R : Type} (env : Env B L R) (a : Args) :
    ((runMain env a).1.countP (fun e => Event.isTrain e)) ≤ 1 ∧
    (∀ (tr : List (Event B)) (r : MainResult B L R),
      runMain env a = (tr, .ok r) →
      ∃ (ta : TrainArgs B) (x y : Arr B),
        tr = [.datasetLoad datasetArgsOfMain, .getTrainBatch, .getTestBatch,
              .train ta, .evaluate x y, .pickleWrite r.filename]) := by
  constructor
  · simp only [runMain]
    repeat' split
    all_goals simp [Event.isTrain]
  · intro tr r h
    obtain ⟨lk, rk, n, ds, xt, yt, u1, u2, xs, ys, v1, v2, l, res,
      hl, hr, hb, hd, htb, hsb, htrn, hev, hpd, hres, htrace⟩ := runMain_ok_elim h
    subst hres htrace
    exact ⟨_, _, _, rfl⟩

/-- Witness for C7 at the defaults in the always-succeeding environment. -/
theorem train_once_then_evaluate_witness :
    ((runMain unitEnv defaultArgs).1.countP (fun e => Event.isTrain e)) ≤ 1 ∧
    ∃ (ta : TrainArgs Unit) (x y : Arr Unit),
      fullTraceOf .pytorch ⟨61⟩ defaultArgs (.base ()) (.base ()) (.base ())
        (.base ()) 1700000000 =
      [.datasetLoad datasetArgsOfMain, .getTrainBatch, .getTestBatch,
       .train ta, .evaluate x y,
       .pickleWrite (mainResultOf unitEnv .alifRNN .eprop .pytorch ⟨61⟩
         defaultArgs () ()).filename] :=
  ⟨(train_once_then_evaluate unitEnv defaultArgs).1,
   (train_once_then_evaluate unitEnv defaultArgs).2
    (fullTraceOf .pytorch ⟨61⟩ defaultArgs (.base ()) (.base ()) (.base ())
      (.base ()) 1700000000)
    (mainResultOf unitEnv .alifRNN .eprop .pytorch ⟨61⟩ defaultArgs () ())
    rfl⟩

/-- C9: `--reg`, `--reg_coeff`, `--reg_target` are forwarded to the
learning-rule constructor as `firing_rate_regularization`, `c_reg`,
`f_target` for every learning rule and independently of `--reg`; with
learning rule `eprop` the Evaluator loss stays the plain string even
when `--reg` is set. -/
theorem reg_forwarding {B L R : Type} (env : Env B L R) (a : Args) :
    (∀ (ruleK : RuleKind) (ev : EvalSpec B),
      (buildAlgo ruleK ev a).firing_rate_regularization = a.reg ∧
      (buildAlgo ruleK ev a).c_reg = a.reg_coeff ∧
      (buildAlgo ruleK ev a).f_target = a.reg_target) ∧
    (∀ (tr : List (Event B)) (r : MainResult B L R),
      runMain env a = (tr, .ok r) →
      r.algo.firing_rate_regularization = a.reg ∧
      r.algo.c_reg = a.reg_coeff ∧ r.algo.f_target = a.reg_target ∧
      (pyLower a.learning_rule = "eprop" →
        r.evaluated_model.loss = .str "categorical_crossentropy")) := by
  refine ⟨fun ruleK ev => ⟨rfl, rfl, rfl⟩, ?_⟩
  intro tr r h
  obtain ⟨lk, rk, n, ds, xt, yt, u1, u2, xs, ys, v1, v2, l, res,
    hl, hr, hb, hd, htb, hsb, htrn, hev, hpd, hres, htrace⟩ := runMain_ok_elim h
  subst hres
  refine ⟨rfl, rfl, rfl, ?_⟩
  intro hE
  have hne : ¬ (pyLower a.learning_rule = "bptt" ∧ a.reg = true) := by
    rintro ⟨hb, -⟩
    exact absurd (hE.symm.trans hb) (by decide)
  show mkLoss env n a = .str "categorical_crossentropy"
  rw [mkLoss, if_neg hne]

/-- Witness for C9: with `--reg` set and learning rule `eprop` (the
default), the regularization options reach the constructor while the loss
stays plain. -/
theorem reg_forwarding_witness :
    (buildAlgo .eprop (evalSpecOf unitEnv .alifRNN .pytorch ⟨61⟩
        { defaultArgs with reg := true }) { defaultArgs with reg := true
      }).firing_rate_regularization = true ∧
    (mainResultOf unitEnv .alifRNN .eprop .pytorch ⟨61⟩
        { defaultArgs with reg := true } () ()).evaluated_model.loss =
      .str "categorical_crossentropy" :=
  ⟨((reg_forwarding unitEnv { defaultArgs with reg := true }).1 .eprop
      (evalSpecOf unitEnv .alifRNN .pytorch ⟨61⟩
        { defaultArgs with reg := true })).1,
   ((reg_forwarding unitEnv { defaultArgs with reg := true }).2
      (fullTraceOf .pytorch ⟨61⟩ { defaultArgs with reg := true } (.base ())
        (.base ()) (.base ()) (.base ()) 1700000000)
      (mainResultOf unitEnv .alifRNN .eprop .pytorch ⟨61⟩
        { defaultArgs with reg := true } () ())
      rfl).2.2.2 (by decide)⟩

/-- C10: the dataset is always constructed with the hard-coded arguments
`(32, 'timit_processed', 'mfccs', use_reduced_phonem_set=False)` whatever
`--batch_size` is, while `--batch_size` and `--epoch` reach only the
training call. -/
theorem dataset_args_fixed {B L R : Type} (env : Env B L R) (a : Args) :
    datasetArgsOfMain = ⟨32, "timit_processed", "mfccs", false⟩ ∧
    (∀ dargs : DatasetArgs, Event.datasetLoad dargs ∈ (runMain env a).1 →
      dargs = datasetArgsOfMain) ∧
    (∀ ta : TrainArgs B, Event.train ta ∈ (runMain env a).1 →
      ta.batch_size = a.batch_size ∧ ta.epochs = a.epoch) := by
  refine ⟨rfl, ?_, ?_⟩
  · intro dargs hmem
    simp only [runMain] at hmem
    repeat' split at hmem
    all_goals simp_all
  · intro ta hmem
    simp only [runMain] at hmem
    repeat' split at hmem
    all_goals simp_all

/-- Witness for C10: at the defaults, the training call in the trace uses
the parsed `--batch_size` and `--epoch`, and the dataset-load event uses
the hard-coded arguments. -/
theorem dataset_args_fixed_witness :
    (trainArgsOf .pytorch ⟨61⟩ defaultArgs (Arr.base ()) (Arr.base ())
      (Arr.base ()) (Arr.base ())).batch_size = defaultArgs.batch_size ∧
    (trainArgsOf .pytorch ⟨61⟩ defaultArgs (Arr.base ()) (Arr.base ())
      (Arr.base ()) (Arr.base ())).epochs = defaultArgs.epoch :=
  (dataset_args_fixed unitEnv defaultArgs).2.2
    (trainArgsOf .pytorch ⟨61⟩ defaultArgs (Arr.base ()) (Arr.base ())
      (Arr.base ()) (Arr.base ())) (by decide)

end Timit
